import Mathlib

/-!
Verification of the navigation core of the `getmethere` turn-by-turn
navigation client.  The development shallowly embeds, in Lean:

* `decodePolyline` (services/navigationService.ts): the encoded-curve
  (Google polyline) decoder,
* the `navigation` Redux slice (store/navigationSlice.ts): its state, its
  reducers (`setSelectedRoute`, `setAlternativeRoutes`, `updateEta`, ...),
  and its helper functions (`calculateRouteStatus`, `getTrafficDelay`,
  `formatEta`, `shouldAnnounceEta`).

Modelling conventions:
* JavaScript numbers are modelled as `ℚ` (for physical quantities and wall
  clock timestamps) or `Int`/`Nat` where the code computes with integers.
  Floating point rounding is idealised away; none of the verified
  properties depend on it.
* Coordinates are kept in the decoder's scaled-integer form: a latitude /
  longitude in units of 1e-5 degrees.  The source converts to degrees via
  `Number((lat * 1e-5).toFixed(6))`, which is injective on that integer
  grid, so the integer form carries the same information.
* The 32-bit JavaScript bitwise semantics of `|`, `<<`, `>>`, `~`, `&`
  inside the decoder are modelled exactly (accumulator in `Nat` mod 2^32,
  shift counts mod 32, sign-propagating right shift).
* The haversine `getDistance` uses real trigonometry; every property we
  verify about the callers holds for an arbitrary distance function, so
  the development is parameterised by `d : Coord → Coord → ℚ`.  Likewise
  `new Date(t).getHours()` (local time) is an abstract `hourOf : ℚ → Int`.
* `Date.now()` is passed in as an explicit `now` argument; one reducer
  call observes a single instant.
* Side effects (console logging, `Speech.speak`) are dropped; the state
  bookkeeping around them (`lastVoiceAnnouncement`) is kept.
-/

namespace GetMeThere

/-- A decoded coordinate, in units of 1e-5 degrees (the decoder's internal
integer grid; 3850000 stands for latitude 38.5). -/
structure Coord where
  latitude : Int
  longitude : Int
deriving DecidableEq

/-- JavaScript `ToInt32` of an accumulator kept as a natural below `2^32`. -/
def toInt32 (n : Nat) : Int :=
  if n < 2 ^ 31 then (n : Int) else (n : Int) - 2 ^ 32

/-- One `do { byte = encoded.charCodeAt(index++) - 63; result |= (byte & 0x1f)
<< shift; shift += 5; } while (byte >= 0x20)` loop of `decodePolyline`:
consume chunks of one varint value.  Returns the accumulated 32-bit value and
the remaining characters, or `none` when the string ends mid-value (the
source throws `Unexpected end of polyline` there). -/
def decodeValue : List Char → Nat → Nat → Option (Nat × List Char)
  | [], _, _ => none
  | c :: cs, shift, result =>
    let byte : Int := (c.toNat : Int) - 63
    let chunk : Nat := (byte.emod 32).toNat
    let result2 : Nat := (result ||| (chunk <<< (shift % 32))) % 2 ^ 32
    if 32 ≤ byte then decodeValue cs (shift + 5) result2
    else some (result2, cs)

/-- Embeds `((result & 1) ? ~(result >> 1) : (result >> 1))`: undo the zigzag
encoding of a 32-bit accumulator.  JavaScript `>> 1` is the sign-propagating
shift, i.e. floor division by 2 of the signed value; `~x` is `-x - 1`. -/
def fromZigzag (n : Nat) : Int :=
  let half := Int.fdiv (toInt32 n) 2
  if n % 2 = 1 then -half - 1 else half

/-- The decoder's range filter `latitude >= -90 && latitude <= 90 &&
longitude >= -180 && longitude <= 180` on the 1e-5-degree grid (the `isNaN`
conjuncts cannot fire on exact arithmetic). -/
def coordValid (lat lng : Int) : Bool :=
  -9000000 ≤ lat && lat ≤ 9000000 && -18000000 ≤ lng && lng ≤ 18000000

/-- The `while (index < encoded.length)` loop of `decodePolyline`.  Each
iteration decodes a latitude then a longitude delta; a `none` from
`decodeValue` is the thrown `Unexpected end of polyline`, which the
surrounding `catch` turns into returning the coordinates accumulated so far.
`fuel` bounds the number of iterations; every iteration consumes at least
one character, so `fuel = s.length` makes the bound unreachable. -/
def decodeLoop : Nat → List Char → Int → Int → List Coord → List Coord
  | 0, _, _, _, acc => acc.reverse
  | fuel + 1, s, lat, lng, acc =>
    match decodeValue s 0 0 with
    | none => acc.reverse
    | some (rlat, s1) =>
      let lat2 := lat + fromZigzag rlat
      match decodeValue s1 0 0 with
      | none => acc.reverse
      | some (rlng, s2) =>
        let lng2 := lng + fromZigzag rlng
        let acc2 := if coordValid lat2 lng2 then ⟨lat2, lng2⟩ :: acc else acc
        decodeLoop fuel s2 lat2 lng2 acc2

/-- Embeds `decodePolyline` (services/navigationService.ts).  `none` models a
`null` argument; `!encoded` is true exactly for `null` and the empty
string. -/
def decodePolyline : Option String → List Coord
  | none => []
  | some s => if s = "" then [] else decodeLoop s.data.length s.data 0 0 []

/-- Reference chunk-level parse used to state the partial-result contract:
the list of *completely* decoded varint values of the string, stopping at a
truncated trailing value. -/
def parseValues : Nat → List Char → List Nat
  | 0, _ => []
  | fuel + 1, s =>
    match decodeValue s 0 0 with
    | none => []
    | some (v, rest) => v :: parseValues fuel rest

/-- All completely decoded varint values of a character list. -/
def parsedValues (s : List Char) : List Nat := parseValues s.length s

/-- Reference coordinate builder: pair up the completely decoded values
(latitude delta first), apply zigzag decoding cumulatively, and keep the
in-range coordinates.  An unpaired trailing latitude value is dropped, just
as a truncated value is. -/
def buildCoords : List Nat → Int → Int → List Coord
  | rlat :: rlng :: rest, lat, lng =>
    let lat2 := lat + fromZigzag rlat
    let lng2 := lng + fromZigzag rlng
    (if coordValid lat2 lng2 then [⟨lat2, lng2⟩] else []) ++ buildCoords rest lat2 lng2
  | _, _, _ => []

/-! ## The navigation slice data model (store/navigationSlice.ts, types/navigation.ts) -/

/-- Embeds `{ text: string; value: number }`, the distance / duration display pair
of a route or step.  A runtime-`undefined` `text` and an empty `text` are
both falsy in the source's checks, so both are modelled as `""`. -/
structure RouteMetric where
  text : String
  value : ℚ
deriving DecidableEq

/-- Embeds `RouteStep` (types/navigation.ts).  No reducer reads inside a step. -/
structure RouteStep where
  distance : RouteMetric
  duration : RouteMetric
  instruction : String
  maneuver : Option String
  polyline : String
deriving DecidableEq

/-- Embeds `Route` (types/navigation.ts), restricted to the fields the slice
reads.  `steps` is a genuine array in every route the app constructs; note
that in JavaScript an *empty* array is still truthy, which matters for the
validation claims below. -/
structure Route where
  distance : RouteMetric
  duration : RouteMetric
  steps : List RouteStep
  polyline : String
deriving DecidableEq

/-- Embeds `Waypoint` (types/navigation.ts).  The location inside a waypoint is
never read by the reducers we verify; it is kept as a `Coord`. -/
structure Waypoint where
  location : Coord
  name : String
  order : Int
deriving DecidableEq

/-- The `currentEta` record of the slice (interface `EtaState`). -/
structure EtaState where
  timestamp : ℚ
  text : String
  value : ℚ
  trafficDelay : Option ℚ
  isOffRoute : Bool
  distanceToRoute : ℚ
  lastVoiceAnnouncement : Option ℚ
deriving DecidableEq

/-- Embeds `updateFrequency: 'normal' | 'frequent'`. -/
inductive UpdateFrequency where
  | normal
  | frequent
deriving DecidableEq

/-- Embeds `cardState: 'hidden' | 'minimized' | 'expanded'`. -/
inductive CardState where
  | hidden
  | minimized
  | expanded
deriving DecidableEq

/-- Embeds `NavigationState` (store/navigationSlice.ts). -/
structure NavigationState where
  currentLocation : Option Coord
  waypoints : List Waypoint
  route : Option Route
  alternativeRoutes : Option (List Route)
  selectedRouteIndex : Int
  loading : Bool
  error : Option String
  heading : Option ℚ
  speed : Option ℚ
  currentEta : Option EtaState
  lastEtaUpdate : ℚ
  voiceEnabled : Bool
  updateFrequency : UpdateFrequency
  isNavigating : Bool
  isNavigationCardVisible : Bool
  cardState : CardState
  lastRouteSwitch : ℚ
deriving DecidableEq

/-- Embeds `OFF_ROUTE_THRESHOLD = 100` meters. -/
def OFF_ROUTE_THRESHOLD : ℚ := 100

/-- Embeds `FREQUENT_UPDATE_DISTANCE = 5000` meters. -/
def FREQUENT_UPDATE_DISTANCE : ℚ := 5000

/-- Embeds `VOICE_ANNOUNCEMENT_INTERVAL = 60000` ms. -/
def VOICE_ANNOUNCEMENT_INTERVAL : ℚ := 60000

/-- Embeds `ROUTE_SWITCH_DEBOUNCE = 500` ms (declared in the slice; see claim C5). -/
def ROUTE_SWITCH_DEBOUNCE : ℚ := 500

/-- Embeds `initialState` of the slice. -/
def initialState : NavigationState where
  currentLocation := none
  waypoints := []
  route := none
  alternativeRoutes := none
  selectedRouteIndex := 0
  loading := false
  error := none
  heading := none
  speed := none
  currentEta := none
  lastEtaUpdate := 0
  voiceEnabled := true
  updateFrequency := .normal
  isNavigating := false
  isNavigationCardVisible := true
  cardState := .hidden
  lastRouteSwitch := 0

/-! ## Helper functions of the slice -/

/-- Embeds `Math.round`: round half toward positive infinity. -/
def jsRound (x : ℚ) : Int := ⌊x + 1 / 2⌋

/-- Embeds `getTrafficDelay` (mock traffic model).  `new Date(timestamp).getHours()`
is local-time dependent, so it is abstracted as `hourOf`. -/
def getTrafficDelay (hourOf : ℚ → Int) (distance : ℚ) (timestamp : ℚ) : ℚ :=
  let hour := hourOf timestamp
  let isRushHour := (7 ≤ hour ∧ hour ≤ 9) ∨ (16 ≤ hour ∧ hour ≤ 18)
  if isRushHour then distance * (2 / 10) / 50 else 0

/-- Embeds `formatEta`.  Its internal `Date.now()` is the same instant `now` as the
caller's. -/
def formatEta (now : ℚ) (timestamp : ℚ) (trafficDelay : Option ℚ) : String :=
  let diff := timestamp - now
  let minutes := jsRound (diff / 60000)
  let etaText :=
    if minutes < 1 then "Arriving now"
    else if minutes < 60 then s!"Arriving in {minutes} min"
    else
      let hours := Int.fdiv minutes 60
      let remainingMinutes := minutes % 60
      s!"Arriving in {hours}h {remainingMinutes}m"
  match trafficDelay with
  | some tdelay =>
    if tdelay ≠ 0 ∧ 300 < tdelay then
      let delayMinutes := jsRound (tdelay / 60)
      etaText ++ s!" ({delayMinutes} min delay due to traffic)"
    else etaText
  | none => etaText

/-- The result record of `calculateRouteStatus`. -/
structure RouteStatus where
  remainingDistance : ℚ
  isOffRoute : Bool
  distanceToRoute : ℚ
deriving DecidableEq

/-- The closest-vertex scan of `calculateRouteStatus`: `minDistance`
initialised to `Infinity` (modelled as `none`, smaller than nothing),
`closestIndex` to 0, updated on a strictly smaller distance. -/
def closestLoop (d : Coord → Coord → ℚ) (loc : Coord) :
    List Coord → Nat → Option ℚ → Nat → Option ℚ × Nat
  | [], _, minD, minI => (minD, minI)
  | c :: cs, i, minD, minI =>
    let dist := d loc c
    let upd : Bool := match minD with
      | none => true
      | some m => dist < m
    if upd then closestLoop d loc cs (i + 1) (some dist) i
    else closestLoop d loc cs (i + 1) minD minI

/-- The remaining-distance loop of `calculateRouteStatus`: sum of
consecutive-vertex distances of a coordinate list. -/
def pathLengthFrom (d : Coord → Coord → ℚ) : List Coord → ℚ
  | a :: b :: rest => d a b + pathLengthFrom d (b :: rest)
  | _ => 0

/-- The body of `calculateRouteStatus` after decoding, over an explicit
coordinate list. -/
def routeStatusOnPath (d : Coord → Coord → ℚ) (loc : Coord)
    (coordinates : List Coord) : Option RouteStatus :=
  if coordinates.length < 2 then none
  else
    match closestLoop d loc coordinates 0 none 0 with
    | (none, _) => none
    | (some minDistance, closestIndex) =>
      some { remainingDistance := pathLengthFrom d (coordinates.drop closestIndex)
             isOffRoute := decide (OFF_ROUTE_THRESHOLD < minDistance)
             distanceToRoute := minDistance }

/-- Embeds `calculateRouteStatus` (store/navigationSlice.ts): decode the polyline,
then scan.  The `(none, _)` branch of the scan is unreachable for a
non-empty list; it stands for the source's never-updated `Infinity`
sentinel.  Nothing in the `try` block can throw (`decodePolyline` already
catches), so the `catch` is dead. -/
def calculateRouteStatus (d : Coord → Coord → ℚ) (currentLocation : Coord)
    (polyline : String) : Option RouteStatus :=
  routeStatusOnPath d currentLocation (decodePolyline (some polyline))

/-- The three announcement triggers of `shouldAnnounceEta`: ETA changed by
more than 300 s, newly off route, or both traffic delays truthy (present
and non-zero) and differing by more than 300 s. -/
def announceTriggers (currentEta : EtaState) (newEta : EtaState) : Bool :=
  let etaChanged := decide (300 < |currentEta.value - newEta.value|)
  let wentOffRoute := !currentEta.isOffRoute && newEta.isOffRoute
  let trafficChanged :=
    match currentEta.trafficDelay, newEta.trafficDelay with
    | some a, some b => a ≠ 0 && b ≠ 0 && decide (300 < |a - b|)
    | _, _ => false
  etaChanged || wentOffRoute || trafficChanged

/-- Embeds `shouldAnnounceEta`.  `currentEta.lastVoiceAnnouncement || 0` maps a
missing (or zero) timestamp to 0. -/
def shouldAnnounceEta (now : ℚ) (currentEta : Option EtaState)
    (newEta : EtaState) : Bool :=
  match currentEta with
  | none => true
  | some cur =>
    if now - (cur.lastVoiceAnnouncement.getD 0) < VOICE_ANNOUNCEMENT_INTERVAL then false
    else announceTriggers cur newEta

/-! ## Reducers -/

/-- Embeds `setCurrentLocation`. -/
def setCurrentLocation (l : Coord) (s : NavigationState) : NavigationState :=
  { s with currentLocation := some l }

/-- Embeds `addWaypoint`: push, then stable sort by `order` (JavaScript
`Array.prototype.sort` is stable). -/
def addWaypoint (w : Waypoint) (s : NavigationState) : NavigationState :=
  { s with waypoints := (s.waypoints ++ [w]).mergeSort (fun a b => a.order ≤ b.order) }

/-- Embeds `removeWaypoint`: drop the waypoint with the given `order`, renumber,
and clear the routes if none remain. -/
def removeWaypoint (order : Int) (s : NavigationState) : NavigationState :=
  let ws := s.waypoints.filter (fun wp => wp.order ≠ order)
  let ws2 := ws.enum.map (fun p => { p.2 with order := (p.1 : Int) })
  if ws2.length = 0 then
    { s with waypoints := ws2, route := none, alternativeRoutes := none,
             selectedRouteIndex := 0 }
  else { s with waypoints := ws2 }

/-- Embeds `updateWaypointOrder`: move the waypoint at position `src` to position
`dst` (JavaScript `splice`), then renumber.  An out-of-range `src` (where
the source would splice `undefined` into a typed array) is modelled as
leaving the list unmoved before renumbering. -/
def updateWaypointOrder (src dst : Nat) (s : NavigationState) : NavigationState :=
  let ws := s.waypoints
  let moved :=
    match ws.get? src with
    | none => ws
    | some w =>
      let ws1 := ws.eraseIdx src
      ws1.insertIdx (min dst ws1.length) w
  { s with waypoints := moved.enum.map (fun p => { p.2 with order := (p.1 : Int) }) }

/-- Embeds `clearWaypoints`. -/
def clearWaypoints (s : NavigationState) : NavigationState :=
  { s with waypoints := [], route := none, alternativeRoutes := none,
           selectedRouteIndex := 0 }

/-- Embeds `setRoute`: install the route, reset the selection, and expand the card
when the payload has a truthy `polyline` (an array-typed `steps` is always
truthy). -/
def setRoute (r : Route) (s : NavigationState) : NavigationState :=
  let s1 := { s with route := some r, selectedRouteIndex := 0 }
  if r.polyline ≠ "" then
    { s1 with isNavigationCardVisible := true, cardState := .expanded }
  else s1

/-- Embeds `setAlternativeRoutes`: overwrite the alternates, touching nothing
else. -/
def setAlternativeRoutes (rs : List Route) (s : NavigationState) : NavigationState :=
  { s with alternativeRoutes := some rs }

/-- The route list built inside `setSelectedRoute`:
`[state.route, ...state.alternativeRoutes].filter(Boolean)` when alternates
exist, else `[state.route]` filtered, else `[]`.  `Option.toList` performs
the `filter(Boolean)` on the possibly-null primary route. -/
def routesOf (s : NavigationState) : List Route :=
  match s.alternativeRoutes with
  | some alts => s.route.toList ++ alts
  | none => s.route.toList

/-- Embeds `setSelectedRoute` (payload coerced with `Number(...)`; a numeric
payload is never `NaN`).  The checks, in source order: non-negative index;
non-empty route list; index in bounds; route defined; truthy `polyline` and
`steps` (an array `steps` is always truthy, so only `polyline` can fail);
truthy `distance.text` and `duration.text`.  Every failure is an early
`return` that leaves the draft state untouched.  On success
`selectedRouteIndex` and `lastRouteSwitch = Date.now()` are written. -/
def setSelectedRoute (now : ℚ) (payload : Int) (s : NavigationState) : NavigationState :=
  let index := payload
  if index < 0 then s
  else
    let routes := routesOf s
    if routes.length = 0 then s
    else if (routes.length : Int) ≤ index then s
    else
      match routes.get? index.toNat with
      | none => s
      | some selectedRoute =>
        if selectedRoute.polyline = "" then s
        else if selectedRoute.distance.text = "" || selectedRoute.duration.text = "" then s
        else { s with selectedRouteIndex := index, lastRouteSwitch := now }

/-- Embeds `setLoading`. -/
def setLoading (b : Bool) (s : NavigationState) : NavigationState :=
  { s with loading := b }

/-- Embeds `setError`. -/
def setError (e : Option String) (s : NavigationState) : NavigationState :=
  { s with error := e }

/-- Embeds `setHeading`. -/
def setHeading (h : Option ℚ) (s : NavigationState) : NavigationState :=
  { s with heading := h }

/-- Embeds `setSpeed`. -/
def setSpeed (v : Option ℚ) (s : NavigationState) : NavigationState :=
  { s with speed := v }

/-- Embeds `clearNavigation`. -/
def clearNavigation (s : NavigationState) : NavigationState :=
  { s with waypoints := [], route := none, alternativeRoutes := none,
           selectedRouteIndex := 0, error := none }

/-- Embeds `setCurrentEta`: store the payload and stamp `lastEtaUpdate = Date.now()`. -/
def setCurrentEta (now : ℚ) (e : EtaState) (s : NavigationState) : NavigationState :=
  { s with currentEta := some e, lastEtaUpdate := now }

/-- Embeds `setVoiceEnabled`. -/
def setVoiceEnabled (b : Bool) (s : NavigationState) : NavigationState :=
  { s with voiceEnabled := b }

/-- Embeds `setUpdateFrequency`: unconditional write of the payload. -/
def setUpdateFrequency (m : UpdateFrequency) (s : NavigationState) : NavigationState :=
  { s with updateFrequency := m }

/-- Embeds `updateEta` (store/navigationSlice.ts).  Guard `!state.route ||
!state.currentLocation || !state.speed`: a missing field or a speed of
exactly 0 (the only falsy number reachable here) aborts; note a *negative*
speed is truthy and passes.  Then the cadence gate, the route status, the
sticky `frequent` switch below `FREQUENT_UPDATE_DISTANCE`, the ETA
arithmetic (`speed * 2.237` mph, `remaining / mph * 3600` seconds), the
mock traffic delay (`trafficDelay || 0` is the identity on a number), and
the announcement bookkeeping (`announceEta`'s speech side effect is
dropped; its `lastVoiceAnnouncement = now` write is kept). -/
def updateEta (d : Coord → Coord → ℚ) (hourOf : ℚ → Int) (now : ℚ)
    (s : NavigationState) : NavigationState :=
  match s.route, s.currentLocation, s.speed with
  | some route, some currentLocation, some speed =>
    if speed = 0 then s
    else
      let updateInterval : ℚ := if s.updateFrequency = .frequent then 10000 else 30000
      if now - s.lastEtaUpdate < updateInterval then s
      else
        match calculateRouteStatus d currentLocation route.polyline with
        | none => s
        | some routeStatus =>
          let s1 :=
            if routeStatus.remainingDistance < FREQUENT_UPDATE_DISTANCE then
              { s with updateFrequency := .frequent }
            else s
          let speedMph := speed * (2237 / 1000)
          let baseTimeSeconds := routeStatus.remainingDistance / speedMph * 3600
          let trafficDelay := getTrafficDelay hourOf routeStatus.remainingDistance now
          let totalTimeSeconds := baseTimeSeconds + trafficDelay
          let etaTimestamp := now + totalTimeSeconds * 1000
          let newEta : EtaState :=
            { timestamp := etaTimestamp
              text := formatEta now etaTimestamp (some trafficDelay)
              value := totalTimeSeconds
              trafficDelay := some trafficDelay
              isOffRoute := routeStatus.isOffRoute
              distanceToRoute := routeStatus.distanceToRoute
              lastVoiceAnnouncement := s.currentEta.bind (fun e => e.lastVoiceAnnouncement) }
          let newEta2 :=
            if s.voiceEnabled && shouldAnnounceEta now s.currentEta newEta then
              { newEta with lastVoiceAnnouncement := some now }
            else newEta
          { s1 with currentEta := some newEta2, lastEtaUpdate := now }
  | _, _, _ => s

/-- Embeds `setNavigationCardVisible`. -/
def setNavigationCardVisible (b : Bool) (s : NavigationState) : NavigationState :=
  if b then { s with isNavigationCardVisible := b, cardState := .expanded }
  else { s with isNavigationCardVisible := b, cardState := .hidden }

/-- Embeds `setCardState`. -/
def setCardState (c : CardState) (s : NavigationState) : NavigationState :=
  { s with cardState := c, isNavigationCardVisible := decide (c ≠ .hidden) }

/-- The action type of the slice: one constructor per reducer.  Reducers
that read `Date.now()` carry the instant as data. -/
inductive Action where
  | setCurrentLocation (l : Coord)
  | addWaypoint (w : Waypoint)
  | removeWaypoint (order : Int)
  | updateWaypointOrder (src dst : Nat)
  | clearWaypoints
  | setRoute (r : Route)
  | setAlternativeRoutes (rs : List Route)
  | setSelectedRoute (now : ℚ) (payload : Int)
  | setLoading (b : Bool)
  | setError (e : Option String)
  | setHeading (h : Option ℚ)
  | setSpeed (v : Option ℚ)
  | clearNavigation
  | setCurrentEta (now : ℚ) (e : EtaState)
  | setVoiceEnabled (b : Bool)
  | setUpdateFrequency (m : UpdateFrequency)
  | updateEta (now : ℚ)
  | setNavigationCardVisible (b : Bool)
  | setCardState (c : CardState)

/-- The combined reducer of the slice. -/
def dispatch (d : Coord → Coord → ℚ) (hourOf : ℚ → Int) :
    Action → NavigationState → NavigationState
  | .setCurrentLocation l, s => setCurrentLocation l s
  | .addWaypoint w, s => addWaypoint w s
  | .removeWaypoint o, s => removeWaypoint o s
  | .updateWaypointOrder src dst, s => updateWaypointOrder src dst s
  | .clearWaypoints, s => clearWaypoints s
  | .setRoute r, s => setRoute r s
  | .setAlternativeRoutes rs, s => setAlternativeRoutes rs s
  | .setSelectedRoute now p, s => setSelectedRoute now p s
  | .setLoading b, s => setLoading b s
  | .setError e, s => setError e s
  | .setHeading h, s => setHeading h s
  | .setSpeed v, s => setSpeed v s
  | .clearNavigation, s => clearNavigation s
  | .setCurrentEta now e, s => setCurrentEta now e s
  | .setVoiceEnabled b, s => setVoiceEnabled b s
  | .setUpdateFrequency m, s => setUpdateFrequency m s
  | .updateEta now, s => updateEta d hourOf now s
  | .setNavigationCardVisible b, s => setNavigationCardVisible b s
  | .setCardState c, s => setCardState c s

/-- The catalog invariant of the spec: `0 <= selectedIndex < 1 + |alternates|`
(a `null` alternates list counts as zero alternates). -/
def catalogInvariant (s : NavigationState) : Prop :=
  0 ≤ s.selectedRouteIndex ∧
    s.selectedRouteIndex < 1 + ((s.alternativeRoutes.getD []).length : Int)

instance (s : NavigationState) : Decidable (catalogInvariant s) := by
  unfold catalogInvariant; infer_instance

/-- The successful-validation predicate of `setSelectedRoute`: a
non-negative in-bounds index whose route has a truthy `polyline`,
`distance.text` and `duration.text`.  (The source also checks `steps` for
truthiness, but an array — even an empty one — is always truthy.) -/
def selectOk (s : NavigationState) (payload : Int) : Bool :=
  if payload < 0 then false
  else
    match (routesOf s).get? payload.toNat with
    | none => false
    | some r => r.polyline ≠ "" && r.distance.text ≠ "" && r.duration.text ≠ ""

/-- Side condition under which an action preserves the catalog invariant:
only `setAlternativeRoutes` needs one (the source does not clamp
`selectedRouteIndex` when the alternates list shrinks). -/
def permitsCatalog (a : Action) (s : NavigationState) : Prop :=
  match a with
  | .setAlternativeRoutes rs => s.selectedRouteIndex < 1 + (rs.length : Int)
  | _ => True

/-! ## Reference definition for the route tracker (claim C6)

`specRouteStatus` is written from the spec's words (§4.3 RouteTracker), to
be compared with the embedding `routeStatusOnPath` / `calculateRouteStatus`
taken from the source: null for fewer than two vertices; `distanceToRoute`
the minimum vertex distance, ties resolved by the earliest index;
`isOffRoute` iff strictly more than 100 m; `remainingDistance` the
piecewise path length from the closest index to the last vertex. -/

/-- The spec's reference route status. -/
def specRouteStatus (d : Coord → Coord → ℚ) (current : Coord)
    (path : List Coord) : Option RouteStatus :=
  if path.length < 2 then none
  else
    let dists := path.map (fun c => d current c)
    match dists.min? with
    | none => none
    | some m =>
      let closestIndex := dists.indexOf m
      some { distanceToRoute := m
             isOffRoute := decide (100 < m)
             remainingDistance :=
               (((path.drop closestIndex).zip (path.drop closestIndex).tail).map
                 (fun p => d p.1 p.2)).sum }

/-! ## Concrete fixtures for counterexamples and witnesses -/

/-- The published reference polyline example. -/
def refPolyline : String := "_p~iF~ps|U_ulLnnqC_mqNvxq`@"

/-- A degenerate distance function used to instantiate the abstract
haversine in concrete runs: every distance is 1 meter. -/
def dOne : Coord → Coord → ℚ := fun _ _ => 1

/-- A clock whose local hour is always 12 (never rush hour). -/
def hourNoon : ℚ → Int := fun _ => 12

/-- A fully valid route step. -/
def stepA : RouteStep where
  distance := { text := "1 mi", value := 1609 }
  duration := { text := "2 min", value := 120 }
  instruction := "Head north"
  maneuver := none
  polyline := "_p~iF~ps|U"

/-- A fully valid route (geometry, steps and display text all present). -/
def routeA : Route where
  distance := { text := "100 mi", value := 160934 }
  duration := { text := "2 hours", value := 7200 }
  steps := [stepA]
  polyline := refPolyline

/-- A route that is valid except for an *empty* (but present) step list. -/
def routeEmptySteps : Route where
  distance := { text := "5 mi", value := 8046 }
  duration := { text := "10 min", value := 600 }
  steps := []
  polyline := refPolyline

/-- State for claim C2: everything needed for an ETA cycle, with a
*negative* speed. -/
def cex2 : NavigationState :=
  { initialState with
      route := some routeA
      currentLocation := some ⟨0, 0⟩
      speed := some (-1) }

/-- State for claim C3: the invariant holds (3 < 1 + 3 alternates). -/
def cex3 : NavigationState :=
  { initialState with
      route := some routeA
      alternativeRoutes := some [routeA, routeA, routeA]
      selectedRouteIndex := 3 }

/-- State for claim C4: the frequency mode is already `frequent`. -/
def cex4 : NavigationState :=
  { initialState with updateFrequency := .frequent }

/-- State for claim C5: a successful switch happened at t = 10000 ms. -/
def cex5 : NavigationState :=
  { initialState with
      route := some routeA
      alternativeRoutes := some [routeA]
      lastRouteSwitch := 10000 }

/-- State for claim C8: the selectable alternate has an empty step list. -/
def cex8 : NavigationState :=
  { initialState with
      route := some routeA
      alternativeRoutes := some [routeEmptySteps] }

/-- State for claim C4's transition half: valid positive-speed ETA cycle. -/
def cexSpeedy : NavigationState :=
  { initialState with
      route := some routeA
      currentLocation := some ⟨0, 0⟩
      speed := some 5 }

/-- A previous ETA snapshot with *no* recorded announcement timestamp. -/
def prevEtaNoTs : EtaState where
  timestamp := 0
  text := ""
  value := 1000
  trafficDelay := none
  isOffRoute := false
  distanceToRoute := 0
  lastVoiceAnnouncement := none

/-- A previous ETA snapshot announced at t = 1000 ms. -/
def prevEtaAnnounced : EtaState where
  timestamp := 0
  text := ""
  value := 1000
  trafficDelay := none
  isOffRoute := false
  distanceToRoute := 0
  lastVoiceAnnouncement := some 1000

/-- A next snapshot whose ETA moved by 1000 s (over the 300 s trigger). -/
def nextEta : EtaState where
  timestamp := 0
  text := ""
  value := 2000
  trafficDelay := none
  isOffRoute := false
  distanceToRoute := 0
  lastVoiceAnnouncement := none

/-! # Theorems -/

/-! ## Decoder lemmas (claims C1 and C7) -/

/-- A successfully decoded varint value consumes at least one character. -/
theorem decodeValue_length :
    ∀ (s : List Char) (sh r v : Nat) (rest : List Char),
      decodeValue s sh r = some (v, rest) → rest.length < s.length := by
  intro s
  induction s with
  | nil => intro sh r v rest h; simp [decodeValue] at h
  | cons c cs ih =>
    intro sh r v rest h
    rw [decodeValue] at h
    split at h
    · exact Nat.lt_trans (ih _ _ _ _ h) (Nat.lt_succ_self _)
    · simp at h
      rw [← h.2]
      exact Nat.lt_succ_self _

/-- Truncation base case: `parseValues` does not look at the fuel when the first value already
fails to parse. -/
theorem parseValues_none (fuel : Nat) (s : List Char)
    (h : decodeValue s 0 0 = none) : parseValues fuel s = [] := by
  cases fuel with
  | zero => rfl
  | succ f => rw [parseValues, h]

/-- Fuel invariance: `parseValues` is independent of the fuel once the fuel covers the
string length. -/
theorem parseValues_fuel (f₁ f₂ : Nat) (s : List Char)
    (h₁ : s.length ≤ f₁) (h₂ : s.length ≤ f₂) :
    parseValues f₁ s = parseValues f₂ s := by
  induction f₁ generalizing f₂ s with
  | zero =>
    have : s = [] := List.eq_nil_of_length_eq_zero (Nat.le_zero.mp h₁)
    subst this
    cases f₂ with
    | zero => rfl
    | succ b => rw [parseValues]; rfl
  | succ a ih =>
    cases f₂ with
    | zero =>
      have : s = [] := List.eq_nil_of_length_eq_zero (Nat.le_zero.mp h₂)
      subst this
      rw [parseValues]; rfl
    | succ b =>
      rw [parseValues, parseValues]
      cases hv : decodeValue s 0 0 with
      | none => rfl
      | some p =>
        obtain ⟨v, rest⟩ := p
        have hlt := decodeValue_length s 0 0 v rest hv
        exact congrArg (v :: ·)
          (ih b rest (Nat.le_of_lt_succ (Nat.lt_of_lt_of_le hlt h₁))
            (Nat.le_of_lt_succ (Nat.lt_of_lt_of_le hlt h₂)))

/-- The imperative decode loop computes exactly the coordinates built from
the completely parsed values: a truncated trailing value (and an unpaired
trailing latitude) contribute nothing, everything decoded before them is
kept. -/
theorem decodeLoop_eq (fuel : Nat) :
    ∀ (s : List Char) (lat lng : Int) (acc : List Coord), s.length ≤ fuel →
      decodeLoop fuel s lat lng acc =
        acc.reverse ++ buildCoords (parseValues fuel s) lat lng := by
  induction fuel with
  | zero =>
    intro s lat lng acc h
    simp [decodeLoop, parseValues, buildCoords]
  | succ fuel ih =>
    intro s lat lng acc h
    rw [decodeLoop, parseValues]
    cases hv : decodeValue s 0 0 with
    | none => simp [buildCoords]
    | some p =>
      obtain ⟨rlat, s1⟩ := p
      dsimp only
      have hs1 : s1.length < s.length := decodeValue_length s 0 0 rlat s1 hv
      have hs1f : s1.length ≤ fuel := Nat.le_of_lt_succ (Nat.lt_of_lt_of_le hs1 h)
      cases hv2 : decodeValue s1 0 0 with
      | none =>
        rw [parseValues_none fuel s1 hv2]
        simp [buildCoords]
      | some q =>
        obtain ⟨rlng, s2⟩ := q
        dsimp only
        have hs2 : s2.length < s1.length := decodeValue_length s1 0 0 rlng s2 hv2
        have hs2f : s2.length ≤ fuel := Nat.le_of_lt (Nat.lt_of_lt_of_le hs2 hs1f)
        rw [ih s2 _ _ _ hs2f]
        obtain ⟨f, rfl⟩ : ∃ f, fuel = f + 1 := by
          cases fuel with
          | zero =>
            exfalso
            have : s1 = [] := List.eq_nil_of_length_eq_zero (Nat.le_zero.mp hs1f)
            subst this
            simp [decodeValue] at hv2
          | succ f => exact ⟨f, rfl⟩
        conv_rhs => rw [parseValues, hv2]
        rw [buildCoords]
        rw [parseValues_fuel (f + 1) f s2 hs2f
          (Nat.le_of_lt_succ (Nat.lt_of_lt_of_le hs2 hs1f))]
        by_cases hvalid : coordValid (lat + fromZigzag rlat) (lng + fromZigzag rlng) = true
        · simp [hvalid, List.append_assoc]
        · simp only [Bool.not_eq_true] at hvalid
          simp [hvalid]

/-- Claim C1: for every input, `decodePolyline` never raises to the caller:
`null` and the empty string decode to the empty sequence, and for every
string the result is exactly the coordinates assembled from the completely
decoded value pairs — when the string ends mid-value, decoding stops there
and everything fully decoded before that point is returned. -/
theorem decodePolyline_never_raises :
    decodePolyline none = [] ∧ decodePolyline (some "") = [] ∧
      ∀ s : String, decodePolyline (some s) = buildCoords (parsedValues s.data) 0 0 := by
  refine ⟨rfl, rfl, ?_⟩
  intro s
  by_cases hs : s = ""
  · subst hs
    simp [decodePolyline, parsedValues, parseValues, buildCoords]
  · simp only [decodePolyline, hs, if_false, parsedValues]
    rw [decodeLoop_eq s.data.length s.data 0 0 [] le_rfl]
    simp

/-- The reference polyline decodes to the three published coordinates
(38.5, -120.2), (40.7, -120.95), (43.252, -126.453) on the 1e-5 grid. -/
theorem refDecode :
    decodePolyline (some refPolyline) =
      [⟨3850000, -12020000⟩, ⟨4070000, -12095000⟩, ⟨4325200, -12645300⟩] := by
  decide

/-- Claim C7 (counterexample): the reference string does *not* decode to
exactly two coordinates — the published example carries three points. -/
theorem decode_reference_not_two :
    (decodePolyline (some refPolyline)).length = 3 ∧
      decodePolyline (some refPolyline) ≠
        [⟨3850000, -12020000⟩, ⟨4070000, -12095000⟩] := by
  rw [refDecode]
  exact ⟨rfl, by decide⟩

/-- Claim C7 (amended): decoding the reference string yields exactly the
three reference coordinates of the format's published example —
(38.5, -120.2), (40.7, -120.95) and (43.252, -126.453) — via
zigzag-decoded 5-bit-chunked signed deltas scaled by 1e-5 applied
cumulatively, latitude first. -/
theorem decode_reference_coords :
    decodePolyline (some refPolyline) =
      [⟨3850000, -12020000⟩, ⟨4070000, -12095000⟩, ⟨4325200, -12645300⟩] :=
  refDecode

/-! ## Route tracker lemmas (claim C6) -/

/-- Folding `min` never rises above the seed. -/
theorem foldl_min_le (l : List ℚ) (a : ℚ) : l.foldl min a ≤ a := by
  induction l generalizing a with
  | nil => simp
  | cons x t ih => exact le_trans (ih (min a x)) (min_le_left _ _)

/-- Closed form of the closest-vertex scan once a finite minimum is
carried: the first component is the running minimum folded over the
remaining distances, the second the earliest index attaining a strict
improvement (ties keep the incumbent). -/
theorem closestLoop_some (d : Coord → Coord → ℚ) (loc : Coord) :
    ∀ (cs : List Coord) (i : Nat) (m : ℚ) (mi : Nat),
      closestLoop d loc cs i (some m) mi =
        (some ((cs.map (fun c => d loc c)).foldl min m),
          if (cs.map (fun c => d loc c)).foldl min m < m then
            i + (cs.map (fun c => d loc c)).indexOf
              ((cs.map (fun c => d loc c)).foldl min m)
          else mi) := by
  intro cs
  induction cs with
  | nil =>
    intro i m mi
    simp [closestLoop]
  | cons c t ih =>
    intro i m mi
    rw [closestLoop]
    simp only [List.map_cons, List.foldl_cons, decide_eq_true_eq]
    by_cases hlt : d loc c < m
    · rw [if_pos hlt, ih, min_eq_right (le_of_lt hlt)]
      have hle : (t.map (fun c => d loc c)).foldl min (d loc c) ≤ d loc c :=
        foldl_min_le _ _
      rcases lt_or_eq_of_le hle with hMlt | hMeq
      · rw [if_pos hMlt, if_pos (lt_trans hMlt hlt)]
        rw [List.indexOf_cons_ne _ (ne_of_gt hMlt)]
        rw [Prod.mk.injEq]
        exact ⟨rfl, by omega⟩
      · rw [hMeq]
        rw [if_neg (lt_irrefl _), if_pos hlt]
        rw [List.indexOf_cons_self]
        rw [Prod.mk.injEq]
        exact ⟨rfl, by omega⟩
    · rw [if_neg hlt, ih, min_eq_left (le_of_not_lt hlt)]
      by_cases hMm : (t.map (fun c => d loc c)).foldl min m < m
      · have h2 : (t.map (fun c => d loc c)).foldl min m < d loc c :=
          lt_of_lt_of_le hMm (le_of_not_lt hlt)
        rw [if_pos hMm, if_pos hMm]
        rw [List.indexOf_cons_ne _ (ne_of_gt h2)]
        rw [Prod.mk.injEq]
        exact ⟨rfl, by omega⟩
      · rw [if_neg hMm, if_neg hMm]

/-- The summed segment loop equals the zip-with-tail sum of the spec. -/
theorem pathLengthFrom_eq (d : Coord → Coord → ℚ) :
    ∀ l : List Coord,
      pathLengthFrom d l = ((l.zip l.tail).map (fun p => d p.1 p.2)).sum := by
  intro l
  match l with
  | [] => simp [pathLengthFrom]
  | [a] => simp [pathLengthFrom]
  | a :: b :: rest =>
    rw [pathLengthFrom]
    rw [pathLengthFrom_eq d (b :: rest)]
    simp

/-- Claim C6: the source's route status agrees with the spec's reference
definition for every distance function, current coordinate, and path
(hence also for every encoded polyline): null below two vertices, minimum
vertex distance with earliest-index tie-breaking, off-route iff strictly
above 100 m, and piecewise remaining distance from the closest index. -/
theorem calculateRouteStatus_eq_spec :
    (∀ (d : Coord → Coord → ℚ) (loc : Coord) (path : List Coord),
        routeStatusOnPath d loc path = specRouteStatus d loc path) ∧
      ∀ (d : Coord → Coord → ℚ) (loc : Coord) (polyline : String),
        calculateRouteStatus d loc polyline =
          specRouteStatus d loc (decodePolyline (some polyline)) := by
  have main : ∀ (d : Coord → Coord → ℚ) (loc : Coord) (path : List Coord),
      routeStatusOnPath d loc path = specRouteStatus d loc path := by
    intro d loc path
    rw [routeStatusOnPath, specRouteStatus]
    by_cases hlen : path.length < 2
    · rw [if_pos hlen, if_pos hlen]
    · rw [if_neg hlen, if_neg hlen]
      match path with
      | [] => simp at hlen
      | c0 :: t =>
        rw [closestLoop]
        dsimp only
        rw [if_pos rfl]
        rw [closestLoop_some]
        simp only [List.map_cons, List.min?]
        have hle : (t.map (fun c => d loc c)).foldl min (d loc c0) ≤ d loc c0 :=
          foldl_min_le _ _
        rcases lt_or_eq_of_le hle with hMlt | hMeq
        · rw [if_pos hMlt]
          rw [List.indexOf_cons_ne _ (ne_of_gt hMlt)]
          simp [OFF_ROUTE_THRESHOLD, pathLengthFrom_eq, Nat.add_comm]
        · rw [hMeq]
          rw [if_neg (lt_irrefl _)]
          rw [List.indexOf_cons_self]
          simp [OFF_ROUTE_THRESHOLD, pathLengthFrom_eq]
  exact ⟨main, fun d loc polyline => main d loc (decodePolyline (some polyline))⟩

/-! ## Announcement policy (claims C9 and C10) -/

/-- Claim C9: `shouldAnnounceEta` returns true unconditionally on a null
previous snapshot; and with a previous snapshot whose recorded announcement
timestamp is less than 60000 ms old it returns false, regardless of the
change triggers. -/
theorem shouldAnnounceEta_first_and_floor :
    (∀ (now : ℚ) (newEta : EtaState), shouldAnnounceEta now none newEta = true) ∧
      ∀ (now : ℚ) (cur newEta : EtaState) (t : ℚ),
        cur.lastVoiceAnnouncement = some t → now - t < 60000 →
          shouldAnnounceEta now (some cur) newEta = false := by
  constructor
  · intro now newEta
    rfl
  · intro now cur newEta t ht hlt
    simp only [shouldAnnounceEta, ht, Option.getD_some]
    rw [if_pos (by simpa [VOICE_ANNOUNCEMENT_INTERVAL] using hlt)]

/-- Witness for C9 at concrete snapshots: a previous snapshot announced at
t = 1000 ms suppresses at now = 30000 ms, and a null previous snapshot
always announces. -/
theorem shouldAnnounceEta_first_and_floor_witness :
    shouldAnnounceEta 30000 (some prevEtaAnnounced) nextEta = false ∧
      shouldAnnounceEta 0 none nextEta = true :=
  ⟨shouldAnnounceEta_first_and_floor.2 30000 prevEtaAnnounced nextEta 1000 rfl
      (by norm_num),
    shouldAnnounceEta_first_and_floor.1 0 nextEta⟩

/-- Claim C10 (counterexample): with a missing announcement timestamp the
floor *can* suppress — at `now = 0` (less than 60000 ms past the epoch) the
decision is false even though a change trigger fires, because the missing
timestamp is treated as time 0. -/
theorem shouldAnnounce_missing_ts_cex :
    prevEtaNoTs.lastVoiceAnnouncement = none ∧
      announceTriggers prevEtaNoTs nextEta = true ∧
      shouldAnnounceEta 0 (some prevEtaNoTs) nextEta = false := by
  refine ⟨rfl, ?_, ?_⟩
  · norm_num [announceTriggers, prevEtaNoTs, nextEta]
  · norm_num [shouldAnnounceEta, prevEtaNoTs, VOICE_ANNOUNCEMENT_INTERVAL]

/-- Claim C10 (amended): for a previous snapshot with no recorded
announcement timestamp, once the clock is at least 60000 ms past the epoch
(always true for a real wall clock), the floor never suppresses:
`shouldAnnounceEta` equals the disjunction of the three change triggers,
because the missing timestamp is treated as time 0. -/
theorem shouldAnnounce_missing_ts (now : ℚ) (cur newEta : EtaState)
    (h : cur.lastVoiceAnnouncement = none) (hn : 60000 ≤ now) :
    shouldAnnounceEta now (some cur) newEta = announceTriggers cur newEta := by
  simp only [shouldAnnounceEta, h, Option.getD_none, sub_zero]
  rw [if_neg (by rw [VOICE_ANNOUNCEMENT_INTERVAL]; linarith)]

/-- Witness for the amended C10 at a concrete clock and snapshots. -/
theorem shouldAnnounce_missing_ts_witness :
    shouldAnnounceEta 60000 (some prevEtaNoTs) nextEta =
      announceTriggers prevEtaNoTs nextEta :=
  shouldAnnounce_missing_ts 60000 prevEtaNoTs nextEta rfl (by norm_num)

/-! ## ETA update (claims C2 and C4) -/

/-- Concrete route status: with the all-ones distance function and the
three-point reference polyline, the closest vertex is the first (1 m away,
not off route) and the remaining distance is the two segments, 2 m. -/
theorem statusOne :
    calculateRouteStatus dOne ⟨0, 0⟩ refPolyline =
      some { remainingDistance := 2, isOffRoute := false, distanceToRoute := 1 } := by
  rw [calculateRouteStatus, refDecode]
  norm_num [routeStatusOnPath, closestLoop, pathLengthFrom, dOne, OFF_ROUTE_THRESHOLD]

/-- Claim C2 (counterexample): a *negative* speed is not rejected — the
guard only tests falsiness.  With speed −1 m/s and an otherwise valid
state, `updateEta` emits a snapshot and mutates the state. -/
theorem updateEta_negative_speed_cex :
    cex2.speed = some (-1) ∧ ((-1 : ℚ) ≤ 0) ∧
      (updateEta dOne hourNoon 30000 cex2).currentEta ≠ none ∧
      updateEta dOne hourNoon 30000 cex2 ≠ cex2 := by
  have hshape : (updateEta dOne hourNoon 30000 cex2).currentEta ≠ none ∧
      (updateEta dOne hourNoon 30000 cex2).lastEtaUpdate = 30000 := by
    rw [updateEta]
    have hint : (if UpdateFrequency.normal = UpdateFrequency.frequent
        then (10000 : ℚ) else 30000) = 30000 := rfl
    norm_num [cex2, initialState, routeA, statusOne, FREQUENT_UPDATE_DISTANCE, hint]
    exact Option.some_ne_none _
  refine ⟨rfl, by norm_num, hshape.1, ?_⟩
  intro heq
  have h2 := congrArg NavigationState.lastEtaUpdate heq
  rw [hshape.2] at h2
  norm_num [cex2, initialState] at h2

/-- Claim C2 (amended): `updateEta` is a no-op when the speed is missing or
exactly zero — the falsiness guard rejects only those.  (Negative speed is
not rejected, as the counterexample shows; all arithmetic stays finite
either way in exact arithmetic.) -/
theorem updateEta_zero_or_missing_speed (d : Coord → Coord → ℚ)
    (hourOf : ℚ → Int) (now : ℚ) (s : NavigationState)
    (h : s.speed = none ∨ s.speed = some 0) :
    updateEta d hourOf now s = s := by
  rcases h with h | h <;>
    cases hr : s.route <;> cases hl : s.currentLocation <;>
      simp [updateEta, h, hr, hl]

/-- Witness for the amended C2: the initial state (no speed) is unchanged. -/
theorem updateEta_zero_or_missing_speed_witness :
    updateEta dOne hourNoon 0 initialState = initialState :=
  updateEta_zero_or_missing_speed dOne hourNoon 0 initialState (Or.inl rfl)

/-- Shape of any `updateEta` result: the catalog fields are untouched and
the frequency mode is either kept or set to `frequent`. -/
theorem updateEta_shape (d : Coord → Coord → ℚ) (hourOf : ℚ → Int) (now : ℚ)
    (s : NavigationState) :
    (updateEta d hourOf now s).route = s.route ∧
      (updateEta d hourOf now s).alternativeRoutes = s.alternativeRoutes ∧
      (updateEta d hourOf now s).selectedRouteIndex = s.selectedRouteIndex ∧
      ((updateEta d hourOf now s).updateFrequency = s.updateFrequency ∨
        (updateEta d hourOf now s).updateFrequency = .frequent) := by
  cases hr : s.route with
  | none => simp [updateEta, hr]
  | some r =>
    cases hl : s.currentLocation with
    | none => simp [updateEta, hr, hl]
    | some loc =>
      cases hv : s.speed with
      | none => simp [updateEta, hr, hl, hv]
      | some v =>
        simp only [updateEta, hr, hl, hv]
        by_cases h0 : v = 0
        · simp [h0, hr]
        · rw [if_neg h0]
          by_cases hcad : now - s.lastEtaUpdate <
              (if s.updateFrequency = .frequent then (10000 : ℚ) else 30000)
          · rw [if_pos hcad]
            simp [hr]
          · rw [if_neg hcad]
            cases hcs : calculateRouteStatus d loc r.polyline with
            | none => simp [hr]
            | some st =>
              by_cases hrem : st.remainingDistance < FREQUENT_UPDATE_DISTANCE <;>
                simp [hrem, hr]

/-- Claim C4 (counterexample): the exported `setUpdateFrequency` action
writes the mode unconditionally, so a `frequent` state transitions back to
`normal` when that action is dispatched. -/
theorem setUpdateFrequency_back_cex :
    cex4.updateFrequency = .frequent ∧
      (dispatch dOne hourNoon (.setUpdateFrequency .normal) cex4).updateFrequency =
        .normal :=
  ⟨rfl, rfl⟩

/-- Claim C4 (amended): within `updateEta` the mode is one-way — a
`frequent` state stays `frequent`, and an executed update cycle whose
remaining distance is below 5000 m switches the mode to `frequent`; but
`setUpdateFrequency` writes its payload unconditionally, so the mode *can*
leave `frequent` through that action. -/
theorem updateFrequency_one_way :
    (∀ (d : Coord → Coord → ℚ) (hourOf : ℚ → Int) (now : ℚ) (s : NavigationState),
        s.updateFrequency = .frequent →
          (updateEta d hourOf now s).updateFrequency = .frequent) ∧
      (∀ (d : Coord → Coord → ℚ) (hourOf : ℚ → Int) (now : ℚ)
          (s : NavigationState) (r : Route) (loc : Coord) (v : ℚ)
          (st : RouteStatus),
          s.route = some r → s.currentLocation = some loc → s.speed = some v →
            v ≠ 0 →
            ¬(now - s.lastEtaUpdate <
                (if s.updateFrequency = .frequent then (10000 : ℚ) else 30000)) →
            calculateRouteStatus d loc r.polyline = some st →
            st.remainingDistance < 5000 →
            (updateEta d hourOf now s).updateFrequency = .frequent) ∧
      ∀ (m : UpdateFrequency) (s : NavigationState),
        (setUpdateFrequency m s).updateFrequency = m := by
  refine ⟨?_, ?_, fun m s => rfl⟩
  · intro d hourOf now s h
    rcases (updateEta_shape d hourOf now s).2.2.2 with h1 | h1
    · rw [h1, h]
    · exact h1
  · intro d hourOf now s r loc v st hr hl hv hv0 hcad hcs hrem
    simp only [updateEta, hr, hl, hv]
    rw [if_neg hv0, if_neg hcad]
    simp only [hcs]
    rw [if_pos (by rw [FREQUENT_UPDATE_DISTANCE]; exact hrem)]

/-- Witness for the amended C4: a `frequent` state stays `frequent` under
`updateEta`; a concrete valid cycle below 5000 m switches to `frequent`;
and `setUpdateFrequency normal` writes `normal`. -/
theorem updateFrequency_one_way_witness :
    (updateEta dOne hourNoon 0 cex4).updateFrequency = .frequent ∧
      (updateEta dOne hourNoon 30000 cexSpeedy).updateFrequency = .frequent ∧
      (setUpdateFrequency .normal initialState).updateFrequency = .normal :=
  ⟨updateFrequency_one_way.1 dOne hourNoon 0 cex4 rfl,
    updateFrequency_one_way.2.1 dOne hourNoon 30000 cexSpeedy routeA ⟨0, 0⟩ 5
      { remainingDistance := 2, isOffRoute := false, distanceToRoute := 1 }
      rfl rfl rfl (by norm_num)
      (by norm_num [cexSpeedy, initialState,
        show (if UpdateFrequency.normal = UpdateFrequency.frequent
          then (10000 : ℚ) else 30000) = 30000 from rfl])
      statusOne (by norm_num),
    updateFrequency_one_way.2.2 .normal initialState⟩

/-! ## Route selection (claims C5, C8 and C3) -/

/-- Characterisation of `setSelectedRoute`: every failed check is an early
return leaving the state untouched; success writes exactly
`selectedRouteIndex` and `lastRouteSwitch`. -/
theorem setSelectedRoute_eq (now : ℚ) (payload : Int) (s : NavigationState) :
    setSelectedRoute now payload s =
      if selectOk s payload = true then
        { s with selectedRouteIndex := payload, lastRouteSwitch := now }
      else s := by
  rw [setSelectedRoute, selectOk]
  by_cases hneg : payload < 0
  · simp [hneg]
  · simp only [hneg, if_false]
    by_cases hnil : (routesOf s).length = 0
    · have hget : (routesOf s).get? payload.toNat = none := by
        rw [List.get?_eq_none]
        omega
      rw [List.get?_eq_getElem?] at hget
      simp [hnil, hget]
    · simp only [hnil, if_false]
      by_cases hle : (routesOf s).length ≤ payload.toNat
      · have hcode : ((routesOf s).length : Int) ≤ payload := by omega
        have hget : (routesOf s).get? payload.toNat = none := List.get?_eq_none.mpr hle
        rw [List.get?_eq_getElem?] at hget
        simp [hcode, hget]
      · have hlt : payload.toNat < (routesOf s).length := Nat.lt_of_not_le hle
        have hcode : ¬(((routesOf s).length : Int) ≤ payload) := by omega
        obtain ⟨r, hget⟩ : ∃ r, (routesOf s).get? payload.toNat = some r :=
          ⟨_, List.get?_eq_get hlt⟩
        rw [if_neg hcode, hget]
        by_cases h1 : r.polyline = ""
        · simp [h1]
        · by_cases h2 : r.distance.text = ""
          · simp [h1, h2]
          · by_cases h3 : r.duration.text = ""
            · simp [h1, h2, h3]
            · simp [h1, h2, h3]

/-- Claim C5 (counterexample): the 500 ms debounce constant is not
enforced by the reducer — 100 ms after a successful switch, a valid
`select` still changes both `selectedIndex` and `lastSwitchTimestamp`. -/
theorem debounce_not_enforced_cex :
    (10100 : ℚ) - cex5.lastRouteSwitch < ROUTE_SWITCH_DEBOUNCE ∧
      cex5.selectedRouteIndex = 0 ∧
      (setSelectedRoute 10100 1 cex5).selectedRouteIndex = 1 ∧
      cex5.lastRouteSwitch = 10000 ∧
      (setSelectedRoute 10100 1 cex5).lastRouteSwitch = 10100 := by
  have hok : selectOk cex5 1 = true := by decide
  rw [setSelectedRoute_eq, if_pos hok]
  refine ⟨?_, rfl, rfl, rfl, rfl⟩
  norm_num [cex5, initialState, ROUTE_SWITCH_DEBOUNCE]

/-- Claim C5 (amended): the data layer declares the 500 ms debounce window
(`ROUTE_SWITCH_DEBOUNCE`, `lastRouteSwitch`) but does not enforce it: a
valid `select` inside the window is processed normally, updating
`selectedIndex` and `lastSwitchTimestamp` (any debouncing happens only in
the UI component). -/
theorem setSelectedRoute_ignores_debounce (now : ℚ) (payload : Int)
    (s : NavigationState)
    (_hwin : now - s.lastRouteSwitch < ROUTE_SWITCH_DEBOUNCE)
    (hok : selectOk s payload = true) :
    (setSelectedRoute now payload s).selectedRouteIndex = payload ∧
      (setSelectedRoute now payload s).lastRouteSwitch = now := by
  rw [setSelectedRoute_eq, if_pos hok]
  exact ⟨rfl, rfl⟩

/-- Witness for the amended C5 at a concrete in-window call. -/
theorem setSelectedRoute_ignores_debounce_witness :
    (setSelectedRoute 10100 1 cex5).selectedRouteIndex = 1 ∧
      (setSelectedRoute 10100 1 cex5).lastRouteSwitch = 10100 :=
  setSelectedRoute_ignores_debounce 10100 1 cex5
    (by norm_num [cex5, initialState, ROUTE_SWITCH_DEBOUNCE]) (by decide)

/-- Claim C8 (counterexample): a route with an *empty* (but present) step
list passes validation — the truthiness check on an array never fails — so
selecting it succeeds instead of being rejected. -/
theorem setSelectedRoute_empty_steps_cex :
    routeEmptySteps.steps = [] ∧
      cex8.selectedRouteIndex = 0 ∧
      (setSelectedRoute 777 1 cex8).selectedRouteIndex = 1 ∧
      (setSelectedRoute 777 1 cex8).lastRouteSwitch = 777 := by
  have hok : selectOk cex8 1 = true := by decide
  rw [setSelectedRoute_eq, if_pos hok]
  exact ⟨rfl, rfl, rfl, rfl⟩

/-- Claim C8 (amended): `setSelectedRoute` validates, in order, that the
index is non-negative and in bounds and that the target route has a
non-empty polyline and present distance/duration display text; the step
list is only checked for presence, so an empty step list passes.  Any
failed check leaves the whole state unchanged (no partial mutation); a
successful call sets exactly `selectedRouteIndex := index` and
`lastRouteSwitch := now`. -/
theorem setSelectedRoute_validation (now : ℚ) (payload : Int)
    (s : NavigationState) :
    setSelectedRoute now payload s =
      if selectOk s payload = true then
        { s with selectedRouteIndex := payload, lastRouteSwitch := now }
      else s :=
  setSelectedRoute_eq now payload s

/-- The catalog invariant only looks at `selectedRouteIndex` and
`alternativeRoutes`. -/
theorem catalogInvariant_mk (s s' : NavigationState)
    (h1 : s'.selectedRouteIndex = s.selectedRouteIndex)
    (h2 : s'.alternativeRoutes = s.alternativeRoutes)
    (h : catalogInvariant s) : catalogInvariant s' := by
  rw [catalogInvariant, h1, h2]
  exact h

/-- A state whose selected index is 0 always satisfies the invariant. -/
theorem catalogInvariant_zero (s' : NavigationState)
    (h0 : s'.selectedRouteIndex = 0) : catalogInvariant s' := by
  rw [catalogInvariant, h0]
  have := Int.ofNat_nonneg ((s'.alternativeRoutes.getD []).length)
  omega

/-- The route list of `setSelectedRoute` has at most `1 + |alternates|`
members. -/
theorem routesOf_le (s : NavigationState) :
    ((routesOf s).length : Int) ≤ 1 + ((s.alternativeRoutes.getD []).length : Int) := by
  rw [routesOf]
  cases halt : s.alternativeRoutes with
  | none => cases s.route <;> simp
  | some alts => cases s.route <;> (simp; try omega)

/-- A successful validation implies the selected index respects the
catalog bounds. -/
theorem selectOk_bounds (s : NavigationState) (payload : Int)
    (h : selectOk s payload = true) :
    0 ≤ payload ∧
      payload < 1 + ((s.alternativeRoutes.getD []).length : Int) := by
  rw [selectOk] at h
  by_cases hneg : payload < 0
  · rw [if_pos hneg] at h
    exact absurd h (by simp)
  · rw [if_neg hneg] at h
    cases hget : (routesOf s).get? payload.toNat with
    | none => rw [hget] at h; exact absurd h (by simp)
    | some r =>
      have hlt : payload.toNat < (routesOf s).length := by
        by_contra hge
        rw [List.get?_eq_none.mpr (Nat.le_of_not_lt hge)] at hget
        exact Option.noConfusion hget
      have := routesOf_le s
      constructor
      · omega
      · omega

/-- Claim C3 (counterexample): `setAlternativeRoutes` does not clamp the
selected index — replacing three alternates by one, while index 3 is
selected, breaks `0 ≤ selectedIndex < 1 + |alternates|`. -/
theorem setAlternativeRoutes_invariant_cex :
    catalogInvariant cex3 ∧
      ¬catalogInvariant
        (dispatch dOne hourNoon (.setAlternativeRoutes [routeA]) cex3) := by
  constructor
  · exact ⟨by decide, by decide⟩
  · intro hinv
    have := hinv.2
    revert this
    decide

/-- Claim C3 (amended): the catalog invariant holds initially and is
preserved by every action of the slice, with one exception forced by the
counterexample: `setAlternativeRoutes` preserves it only when the incoming
list is long enough for the currently selected index
(`selectedIndex < 1 + |new alternates|`); all other actions — including
`setSelectedRoute`, `setRoute`, `removeWaypoint`, `clearWaypoints`,
`clearNavigation` and `updateEta` — preserve it unconditionally. -/
theorem catalogInvariant_preserved :
    catalogInvariant initialState ∧
      ∀ (d : Coord → Coord → ℚ) (hourOf : ℚ → Int) (a : Action)
        (s : NavigationState),
        catalogInvariant s → permitsCatalog a s →
          catalogInvariant (dispatch d hourOf a s) := by
  constructor
  · exact ⟨by decide, by decide⟩
  · intro d hourOf a s hinv hperm
    cases a with
    | setCurrentLocation l => exact catalogInvariant_mk s _ rfl rfl hinv
    | addWaypoint w => exact catalogInvariant_mk s _ rfl rfl hinv
    | removeWaypoint o =>
      rw [dispatch, removeWaypoint]
      split_ifs
      · exact catalogInvariant_zero _ rfl
      · exact catalogInvariant_mk s _ rfl rfl hinv
    | updateWaypointOrder src dst => exact catalogInvariant_mk s _ rfl rfl hinv
    | clearWaypoints => exact catalogInvariant_zero _ rfl
    | setRoute r =>
      rw [dispatch, setRoute]
      split_ifs
      · exact catalogInvariant_zero _ rfl
      · exact catalogInvariant_zero _ rfl
    | setAlternativeRoutes rs => exact ⟨hinv.1, hperm⟩
    | setSelectedRoute now p =>
      rw [dispatch, setSelectedRoute_eq]
      split_ifs with hok
      · obtain ⟨h1, h2⟩ := selectOk_bounds s p hok
        exact ⟨h1, h2⟩
      · exact hinv
    | setLoading b => exact catalogInvariant_mk s _ rfl rfl hinv
    | setError e => exact catalogInvariant_mk s _ rfl rfl hinv
    | setHeading h => exact catalogInvariant_mk s _ rfl rfl hinv
    | setSpeed v => exact catalogInvariant_mk s _ rfl rfl hinv
    | clearNavigation => exact catalogInvariant_zero _ rfl
    | setCurrentEta now e => exact catalogInvariant_mk s _ rfl rfl hinv
    | setVoiceEnabled b => exact catalogInvariant_mk s _ rfl rfl hinv
    | setUpdateFrequency m => exact catalogInvariant_mk s _ rfl rfl hinv
    | updateEta now =>
      obtain ⟨_, halt, hsel, _⟩ := updateEta_shape d hourOf now s
      exact catalogInvariant_mk s _ hsel halt hinv
    | setNavigationCardVisible b =>
      rw [dispatch, setNavigationCardVisible]
      split_ifs
      · exact catalogInvariant_mk s _ rfl rfl hinv
      · exact catalogInvariant_mk s _ rfl rfl hinv
    | setCardState c => exact catalogInvariant_mk s _ rfl rfl hinv

/-- Witness for the amended C3: the invariant holds initially and after a
concrete `setRoute` dispatch. -/
theorem catalogInvariant_preserved_witness :
    catalogInvariant initialState ∧
      catalogInvariant (dispatch dOne hourNoon (.setRoute routeA) initialState) :=
  ⟨catalogInvariant_preserved.1,
    catalogInvariant_preserved.2 dOne hourNoon (.setRoute routeA) initialState
      catalogInvariant_preserved.1 trivial⟩

end GetMeThere
